import Mathlib

/-!
Verification development for the Oil Spill Detection visualization engine.

The repository renders detection results as raster masks (HTML canvas) and
static SVG charts.  This file gives a shallow embedding of the rendering
code over exact rational arithmetic:

* a canvas surface is a function from points (in `ℚ × ℚ`) to an RGB pixel
  value, together with the list of text labels that were drawn on it;
* `fillRect` paints an axis-aligned rectangle, `fill` on a closed polygon
  path paints the points covered under the canvas nonzero-winding rule;
* colors carry an alpha channel and are composited with the standard
  source-over blend;
* a canvas `shadowBlur` glow pass is modeled as an extra paint pass, below
  the shape, over the box dilation of the shape by the blur amount;
* the single asynchronous point of every mask generator (the image decode,
  `img.onload`) is modeled by an explicit `ImageLoad` event, and a promise
  that can never resolve is modeled as `none`.
-/

set_option linter.unusedVariables false

/-- Percentage-space point (`types.ts`, `Point`): each component is a
percentage of image width/height, nominally in `[0, 100]`. -/
structure Point where
  x : ℚ
  y : ℚ

/-- Percentage-space bounding box (`types.ts`, `Coordinate`). -/
structure Coordinate where
  x : ℚ
  y : ℚ
  w : ℚ
  h : ℚ

/-- Radar metric entry (`types.ts`, `MetricPoint`). -/
structure MetricPoint where
  subject : String
  value : ℚ
  fullMark : ℚ

/-- Training history sample (`types.ts`, `TrainingMetricPoint`). -/
structure TrainingMetricPoint where
  epoch : ℚ
  trainLoss : ℚ
  valIoU : ℚ
  valAccuracy : ℚ

/-- An opaque pixel value, exact rational RGB channels. -/
structure Rgb where
  r : ℚ
  g : ℚ
  b : ℚ
  deriving DecidableEq

/-- A paint color with alpha channel, as set by `ctx.fillStyle` /
`ctx.strokeStyle` / `ctx.shadowColor`. -/
structure Rgba where
  r : ℚ
  g : ℚ
  b : ℚ
  a : ℚ
  deriving DecidableEq

/-- Source-over compositing of a translucent paint over an opaque pixel. -/
def blendOver (src : Rgba) (dst : Rgb) : Rgb :=
  ⟨src.a * src.r + (1 - src.a) * dst.r,
   src.a * src.g + (1 - src.a) * dst.g,
   src.a * src.b + (1 - src.a) * dst.b⟩

/-- The RGB channels of a paint color. -/
def Rgba.rgb (c : Rgba) : Rgb := ⟨c.r, c.g, c.b⟩

/-- A recorded `ctx.fillText` call: the string, its anchor position and the
`ctx.textAlign` mode in force at the call. -/
structure TextOp where
  text : String
  x : ℚ
  y : ℚ
  align : String
  deriving DecidableEq

/-- A raster surface: pixel contents plus the text labels drawn on it.
Text glyph rasterization is font-dependent, so text is recorded as an op
list rather than as pixels. -/
structure Surface where
  pix : ℚ × ℚ → Rgb
  texts : List TextOp

/-- A freshly created canvas (`document.createElement`): no text, pixels at
the transparent-black initial value. -/
def blankSurface : Surface := ⟨fun _ => ⟨0, 0, 0⟩, []⟩

/-- Paint every point of a (decidable) region with a position-dependent
paint color, compositing over the current contents. -/
def paintRegion (region : ℚ × ℚ → Bool) (color : ℚ × ℚ → Rgba) (s : Surface) : Surface :=
  { s with pix := fun p => if region p then blendOver (color p) (s.pix p) else s.pix p }

/-- Record a `ctx.fillText` call. -/
def fillTextOp (text : String) (x y : ℚ) (align : String) (s : Surface) : Surface :=
  { s with texts := s.texts ++ [⟨text, x, y, align⟩] }

/-- Membership in the closed axis-aligned rectangle with corner `(x, y)`
and extent `(w, h)`, the region of `ctx.fillRect(x, y, w, h)`. -/
def inRectB (x y w h : ℚ) (p : ℚ × ℚ) : Bool :=
  decide (x ≤ p.1 ∧ p.1 ≤ x + w ∧ y ≤ p.2 ∧ p.2 ≤ y + h)

/-- Strict interior of a rectangle (used for the inner boundary of a
stroke band). -/
def inRectStrictB (x y w h : ℚ) (p : ℚ × ℚ) : Bool :=
  decide (x < p.1 ∧ p.1 < x + w ∧ y < p.2 ∧ p.2 < y + h)

/-- The band painted by `ctx.strokeRect(x, y, w, h)` with line width `lw`:
the stroke is centered on the rectangle boundary, extending `lw / 2` to
each side. -/
def strokeBandB (x y w h lw : ℚ) (p : ℚ × ℚ) : Bool :=
  inRectB (x - lw / 2) (y - lw / 2) (w + lw) (h + lw) p &&
    !inRectStrictB (x + lw / 2) (y + lw / 2) (w - lw) (h - lw) p

/-- The `shadowBlur` glow region of `ctx.strokeRect(x, y, w, h)` with line
width `lw` and blur `b`: the box dilation of the stroke band itself by the
blur amount — an annulus around the rectangle boundary that leaves the
deep interior untouched (there the source pixels stay visible). -/
def strokeGlowRegionB (x y w h lw blur : ℚ) (p : ℚ × ℚ) : Bool :=
  inRectB (x - lw / 2 - blur) (y - lw / 2 - blur) (w + lw + 2 * blur) (h + lw + 2 * blur) p &&
    !inRectStrictB (x + lw / 2 + blur) (y + lw / 2 + blur) (w - lw - 2 * blur)
      (h - lw - 2 * blur) p

/-- The winding contribution of one directed polygon edge to the ray cast
rightwards from `p` (standard nonzero winding-number crossing test, with
the half-open vertex convention). -/
def edgeWinding (p : ℚ × ℚ) (e : (ℚ × ℚ) × (ℚ × ℚ)) : ℤ :=
  let a := e.1
  let b := e.2
  let cross := (b.1 - a.1) * (p.2 - a.2) - (b.2 - a.2) * (p.1 - a.1)
  if a.2 ≤ p.2 ∧ p.2 < b.2 ∧ 0 < cross then 1
  else if b.2 ≤ p.2 ∧ p.2 < a.2 ∧ cross < 0 then -1
  else 0

/-- The edges of the closed path built by `moveTo`/`lineTo`/`closePath`:
consecutive vertex pairs plus the closing edge back to the first vertex. -/
def cyclicEdges (pts : List (ℚ × ℚ)) : List ((ℚ × ℚ) × (ℚ × ℚ)) :=
  match pts with
  | [] => []
  | a :: _ => pts.zip (pts.tail ++ [a])

/-- Winding number of a closed polygon path around `p`. -/
def windingNumber (pts : List (ℚ × ℚ)) (p : ℚ × ℚ) : ℤ :=
  ((cyclicEdges pts).map (edgeWinding p)).sum

/-- Point coverage of `ctx.fill()` on a closed polygon path: the canvas
default fill rule is nonzero winding. -/
def polyCoversB (pts : List (ℚ × ℚ)) (p : ℚ × ℚ) : Bool :=
  windingNumber pts p != 0

/-- The percentage-to-pixel normalization used at every draw call:
`(percent / 100) * target` (e.g. `(c.x / 100) * canvas.width`). -/
def normalizePercent (percent target : ℚ) : ℚ :=
  percent / 100 * target

/-- A polygon's vertices scaled from percentage space to the pixel space of
a `width × height` canvas, in input order. -/
def scalePolygon (polygon : List Point) (width height : ℚ) : List (ℚ × ℚ) :=
  polygon.map fun pt => (normalizePercent pt.x width, normalizePercent pt.y height)

/-- The one asynchronous step of every mask generator: the source image
either decodes (giving its native dimensions and pixel data, `img.onload`)
or fails to decode.  The generators install no `onerror` handler. -/
inductive ImageLoad where
  | loaded (width height : ℚ) (data : ℚ × ℚ → Rgb)
  | failed

/-- What a mask-generation promise can resolve to: the empty string (the
`resolve("")` branch) or a PNG data URI of a drawn surface.  A promise that
never resolves is `Option.none` at the `Option ArtifactValue` level. -/
inductive ArtifactValue where
  | empty
  | png (s : Surface)

namespace PolyMask

/-- Fill color of the pure-white background (`"#FFFFFF"`). -/
def whiteColor : Rgba := ⟨255, 255, 255, 1⟩

/-- Fill color of land/shoreline features (`"#2ECC71"`). -/
def landColor : Rgba := ⟨46, 204, 113, 1⟩

/-- Fill color of spill regions (`"#000000"`, pure black). -/
def spillColor : Rgba := ⟨0, 0, 0, 1⟩

/-- Whole-frame reviewed tint of the final overlay
(`"rgba(46, 204, 113, 0.2)"`). -/
def tintColor : Rgba := ⟨46, 204, 113, 1/5⟩

/-- Translucent spill highlight of the final overlay
(`"rgba(60, 60, 60, 0.5)"`). -/
def highlightColor : Rgba := ⟨60, 60, 60, 1/2⟩

/-- Shallow embedding of `drawOrganicPolygons` (utils, polygon variant):
every polygon with fewer than 3 points is skipped; every other polygon is
scaled to pixel space, closed in input order and filled with `fillColor`. -/
def drawOrganicPolygons (polygons : List (List Point)) (width height : ℚ)
    (fillColor : Rgba) (s : Surface) : Surface :=
  match polygons with
  | [] => s
  | polygon :: rest =>
      let s1 :=
        if polygon.length < 3 then s
        else paintRegion (fun p => polyCoversB (scalePolygon polygon width height) p)
          (fun _ => fillColor) s
      drawOrganicPolygons rest width height fillColor s1

/-- The synchronous drawing body of `generateGTReferenceMask`: white
background, then land polygons in green, then spill polygons in pure
black (drawn last). -/
def generateGTReferenceMaskSurface (width height : ℚ)
    (spillPolygons landPolygons : List (List Point)) : Surface :=
  drawOrganicPolygons spillPolygons width height spillColor
    (drawOrganicPolygons landPolygons width height landColor
      (paintRegion (inRectB 0 0 width height) (fun _ => whiteColor) blankSurface))

/-- The synchronous drawing body of `generatePredictedMask` (polygon
variant): white background, predicted polygons in pure black. -/
def generatePredictedMaskSurface (width height : ℚ)
    (polygons : List (List Point)) : Surface :=
  drawOrganicPolygons polygons width height spillColor
    (paintRegion (inRectB 0 0 width height) (fun _ => whiteColor) blankSurface)

/-- The synchronous drawing body of `generateFinalOverlay`: the decoded
image, a whole-frame green tint, then the translucent grey spill
highlight polygons. -/
def generateFinalOverlaySurface (width height : ℚ) (data : ℚ × ℚ → Rgb)
    (polygons : List (List Point)) : Surface :=
  drawOrganicPolygons polygons width height highlightColor
    (paintRegion (inRectB 0 0 width height) (fun _ => tintColor)
      (paintRegion (inRectB 0 0 width height)
        (fun p => ⟨(data p).r, (data p).g, (data p).b, 1⟩) blankSurface))

/-- `generateGTReferenceMask` as a whole: on decode success the drawing
runs (or resolves `""` if the 2D context is unavailable); on decode
failure no handler fires and the promise never resolves (`none`). -/
def generateGTReferenceMask (load : ImageLoad) (ctxOk : Bool)
    (spillPolygons landPolygons : List (List Point)) : Option ArtifactValue :=
  match load with
  | .failed => none
  | .loaded width height _ =>
      if ctxOk then
        some (.png (generateGTReferenceMaskSurface width height spillPolygons landPolygons))
      else some .empty

/-- `generatePredictedMask` (polygon variant) as a whole; same resolution
structure as the ground-truth mask. -/
def generatePredictedMask (load : ImageLoad) (ctxOk : Bool)
    (polygons : List (List Point)) : Option ArtifactValue :=
  match load with
  | .failed => none
  | .loaded width height _ =>
      if ctxOk then some (.png (generatePredictedMaskSurface width height polygons))
      else some .empty

/-- `generateFinalOverlay` as a whole; same resolution structure. -/
def generateFinalOverlay (load : ImageLoad) (ctxOk : Bool)
    (polygons : List (List Point)) : Option ArtifactValue :=
  match load with
  | .failed => none
  | .loaded width height data =>
      if ctxOk then some (.png (generateFinalOverlaySurface width height data polygons))
      else some .empty

end PolyMask

namespace BoxMask

/-- Background of the predicted mask (`"#0f172a"`, deep technical navy). -/
def backgroundColor : Rgba := ⟨15, 23, 42, 1⟩

/-- First gradient stop (`"#ff0055"`). -/
def gradientStop0 : Rgb := ⟨255, 0, 85⟩

/-- Second gradient stop (`"#00e676"`). -/
def gradientStop1 : Rgb := ⟨0, 230, 118⟩

/-- Glow color of the detection fill (`"rgba(255, 0, 85, 0.6)"`). -/
def glowColor : Rgba := ⟨255, 0, 85, 3/5⟩

/-- Contrast border color (`"#ffffff"`). -/
def borderColor : Rgba := ⟨255, 255, 255, 1⟩

/-- The color of a two-stop `createLinearGradient(x0, y0, x1, y1)` at a
point: the point is projected onto the gradient axis, the parameter is
clamped to the stop range `[0, 1]`, and the stop colors are interpolated
channel-wise. -/
def linearGradientAt (x0 y0 x1 y1 : ℚ) (c0 c1 : Rgb) (p : ℚ × ℚ) : Rgba :=
  let dx := x1 - x0
  let dy := y1 - y0
  let denom := dx * dx + dy * dy
  let t0 := if denom = 0 then 0 else ((p.1 - x0) * dx + (p.2 - y0) * dy) / denom
  let t := max 0 (min 1 t0)
  ⟨c0.r + t * (c1.r - c0.r), c0.g + t * (c1.g - c0.g), c0.b + t * (c1.b - c0.b), 1⟩

/-- The `shadowBlur` glow region of `fillRect(x, y, w, h)` with blur `b`:
the box dilation of the rectangle by the blur amount.  The glow is painted
beneath the shape itself. -/
def glowRegionB (x y w h blur : ℚ) (p : ℚ × ℚ) : Bool :=
  inRectB (x - blur) (y - blur) (w + 2 * blur) (h + 2 * blur) p

/-- One iteration of the `coords.forEach` body of `generatePredictedMask`
(`imageProcessing.ts`): scale the box to pixels, fill it with the
rose-to-teal diagonal gradient under a 25px glow, then stroke a white
contrast border of width `max(1, width / 300)`. -/
def drawDetectionBox (cw ch : ℚ) (s : Surface) (c : Coordinate) : Surface :=
  let x := normalizePercent c.x cw
  let y := normalizePercent c.y ch
  let w := normalizePercent c.w cw
  let h := normalizePercent c.h ch
  let lw := max 1 (cw / 300)
  let s1 := paintRegion (glowRegionB x y w h 25) (fun _ => glowColor) s
  let s2 := paintRegion (inRectB x y w h)
    (fun p => linearGradientAt x y (x + w) (y + h) gradientStop0 gradientStop1 p) s1
  paintRegion (strokeBandB x y w h lw) (fun _ => borderColor) s2

/-- The synchronous drawing body of `generatePredictedMask`
(`imageProcessing.ts`, bounding-box variant): navy background; when the
coordinate list is empty, a centered "NO ANOMALIES DETECTED" label; then
one gradient box with glow and border per coordinate. -/
def generatePredictedMaskSurface (cw ch : ℚ) (coords : List Coordinate) : Surface :=
  let s0 := paintRegion (inRectB 0 0 cw ch) (fun _ => backgroundColor) blankSurface
  let s1 :=
    if coords.isEmpty then fillTextOp "NO ANOMALIES DETECTED" (cw / 2) (ch / 2) "center" s0
    else s0
  coords.foldl (drawDetectionBox cw ch) s1

/-- `generatePredictedMask` (`imageProcessing.ts`) as a whole: decode
failure never resolves (no `onerror` handler); a missing 2D context
resolves `""`; otherwise the drawn surface is resolved as a PNG. -/
def generatePredictedMask (load : ImageLoad) (ctxOk : Bool)
    (coords : List Coordinate) : Option ArtifactValue :=
  match load with
  | .failed => none
  | .loaded width height _ =>
      if ctxOk then some (.png (generatePredictedMaskSurface width height coords))
      else some .empty

/-- One iteration of the `coords.forEach` body of `generateOverlay`
(`imageProcessing.ts`): rose border stroked under a 20px glow (the glow is
the blurred stroke band, so the box interior keeps showing the image),
then the translucent teal fill, then the inner teal marking rectangle. -/
def drawOverlayBox (cw ch : ℚ) (s : Surface) (c : Coordinate) : Surface :=
  let x := normalizePercent c.x cw
  let y := normalizePercent c.y ch
  let w := normalizePercent c.w cw
  let h := normalizePercent c.h ch
  let lw1 := max 4 (cw / 120)
  let s1 := paintRegion (strokeGlowRegionB x y w h lw1 20) (fun _ => ⟨255, 0, 85, 1⟩) s
  let s2 := paintRegion (strokeBandB x y w h lw1) (fun _ => ⟨255, 0, 85, 1⟩) s1
  let s3 := paintRegion (inRectB x y w h) (fun _ => ⟨0, 230, 118, 7/20⟩) s2
  paintRegion (strokeBandB (x + 4) (y + 4) (w - 8) (h - 8) 1) (fun _ => ⟨0, 230, 118, 1⟩) s3

/-- The synchronous drawing body of `generateOverlay`
(`imageProcessing.ts`): the decoded image followed by one highlighted box
per coordinate; no placeholder branch. -/
def generateOverlaySurface (cw ch : ℚ) (data : ℚ × ℚ → Rgb)
    (coords : List Coordinate) : Surface :=
  let s0 := paintRegion (inRectB 0 0 cw ch)
    (fun p => ⟨(data p).r, (data p).g, (data p).b, 1⟩) blankSurface
  coords.foldl (drawOverlayBox cw ch) s0

/-- `generateOverlay` (`imageProcessing.ts`) as a whole. -/
def generateOverlay (load : ImageLoad) (ctxOk : Bool)
    (coords : List Coordinate) : Option ArtifactValue :=
  match load with
  | .failed => none
  | .loaded width height data =>
      if ctxOk then some (.png (generateOverlaySurface width height data coords))
      else some .empty

end BoxMask

namespace Radar

/-- `generateRadarSvg` (`reportGenerator.ts`) viewport size. -/
def size : ℚ := 400

/-- Chart center coordinate (`size / 2`). -/
def center : ℚ := size / 2

/-- Outer chart radius (`size * 0.35`). -/
def radius : ℚ := size * 35 / 100

/-- The radii of the five concentric grid rings, at relative radii
`0.2, 0.4, 0.6, 0.8, 1` of the outer radius. -/
def gridRingRadii : List ℚ :=
  [2/10, 4/10, 6/10, 8/10, 1].map fun r => radius * r

/-- The data polygon's vertices in polar form `(angle, r)`: metric `i` of
`N` sits at angle `i * (2π / N)` — recorded here as the turn fraction
`i / N` — at distance `(value / fullMark) * radius` from the center.  The
Cartesian vertex emitted into the SVG is
`(center + r·cos(angle), center + r·sin(angle))`, whose distance from the
center is exactly `r`. -/
def vertexPolar (metrics : List MetricPoint) : List (ℚ × ℚ) :=
  ((List.range metrics.length).zip metrics).map fun im =>
    ((im.1 : ℚ) / metrics.length, im.2.value / im.2.fullMark * radius)

end Radar

namespace ReportSvg

/-- `generatePerformanceSvg` viewport width. -/
def svgWidth : ℚ := 800

/-- `generatePerformanceSvg` viewport height. -/
def svgHeight : ℚ := 300

/-- `generatePerformanceSvg` padding. -/
def svgPadding : ℚ := 40

/-- Drawable chart width (`width - padding * 2`). -/
def chartWidth : ℚ := svgWidth - svgPadding * 2

/-- Drawable chart height (`height - padding * 2`). -/
def chartHeight : ℚ := svgHeight - svgPadding * 2

/-- Fixed value-axis maximum for ratio metrics (`maxVal = 1.0`). -/
def maxVal : ℚ := 1

/-- JavaScript division restricted to finiteness: dividing by zero yields
`NaN` or `±Infinity`, both non-finite, modeled as `none`. -/
def jdiv (a b : ℚ) : Option ℚ :=
  if b = 0 then none else some (a / b)

/-- The x-scale `getX(i) = padding + (i / (history.length - 1)) * chartWidth`
of `generatePerformanceSvg`, tracking finiteness of the division by
`history.length - 1`. -/
def getXj (len : ℕ) (i : ℚ) : Option ℚ :=
  (jdiv i ((len : ℚ) - 1)).map fun q => svgPadding + q * chartWidth

/-- The y-scale `getY(val) = height - padding - (val / maxVal) * chartHeight`;
its divisor is the nonzero constant `maxVal`. -/
def getYj (val : ℚ) : ℚ :=
  svgHeight - svgPadding - val / maxVal * chartHeight

/-- The coordinate pairs emitted into the `areaPath` SVG path markup of
`generatePerformanceSvg`: the baseline start, one vertex per history
point, and the closing baseline vertex at index `history.length - 1`. -/
def areaPathCoords (history : List TrainingMetricPoint) : List (Option ℚ × ℚ) :=
  (getXj history.length 0, svgHeight - svgPadding) ::
    (((List.range history.length).zip history).map fun ip =>
      (getXj history.length (ip.1 : ℚ), getYj ip.2.valIoU)) ++
    [(getXj history.length ((history.length : ℚ) - 1), svgHeight - svgPadding)]

/-- Every x-coordinate emitted into the area path is a finite number. -/
def allXFinite (history : List TrainingMetricPoint) : Bool :=
  (areaPathCoords history).all fun c => c.1.isSome

end ReportSvg

namespace AreaChart

/-- Longest digit prefix of a character list, with the remainder
(the digit-scanning core of the `parseFloat` model). -/
def splitDigits : List Char → List Char × List Char
  | [] => ([], [])
  | c :: cs =>
      if c.isDigit then
        let dr := splitDigits cs
        (c :: dr.1, dr.2)
      else ([], c :: cs)

/-- Numeric value of a digit string. -/
def digitsToNat (cs : List Char) : ℕ :=
  cs.foldl (fun n c => 10 * n + (c.toNat - '0'.toNat)) 0

/-- The characters surviving `areaEstimate.replace(/[^0-9.]/g, '')`:
digits and dots. -/
def stripNonNumeric (s : String) : List Char :=
  s.data.filter fun c => c.isDigit || c == '.'

/-- `parseFloat` on a string of digits and dots: the longest prefix of the
form `digits [. digits]` with at least one digit is its value; otherwise
the result is `NaN`, modeled as `none`. -/
def parseLeadingFloat (cs : List Char) : Option ℚ :=
  let ir := splitDigits cs
  match ir.2 with
  | '.' :: rest =>
      let fr := splitDigits rest
      if ir.1.isEmpty ∧ fr.1.isEmpty then none
      else some ((digitsToNat ir.1 : ℚ) + (digitsToNat fr.1 : ℚ) / 10 ^ fr.1.length)
  | _ => if ir.1.isEmpty then none else some (digitsToNat ir.1)

/-- The density-curve magnitude of `AreaDensityChart`:
`parseFloat(result.areaEstimate.replace(/[^0-9.]/g, '')) || 50`.
`||` replaces both `NaN` (unparseable) and `0` (falsy) with `50`. -/
def areaValueOf (s : String) : ℚ :=
  match parseLeadingFloat (stripNonNumeric s) with
  | none => 50
  | some v => if v = 0 then 50 else v

end AreaChart

/-- Every point of the canvas rectangle of a `width × height` surface
holds the single pixel value `c` (a uniform, blank raster). -/
def uniformInCanvas (width height : ℚ) (s : Surface) (c : Rgb) : Prop :=
  ∀ p : ℚ × ℚ, inRectB 0 0 width height p = true → s.pix p = c

/-! ### General lemmas about the surface model -/

theorem blendOver_alpha_one (c : Rgba) (d : Rgb) (hc : c.a = 1) : blendOver c d = c.rgb := by
  simp [blendOver, Rgba.rgb, hc]

theorem paintRegion_pix (region : ℚ × ℚ → Bool) (color : ℚ × ℚ → Rgba) (s : Surface)
    (p : ℚ × ℚ) :
    (paintRegion region color s).pix p =
      if region p then blendOver (color p) (s.pix p) else s.pix p := rfl

theorem paintRegion_texts (region : ℚ × ℚ → Bool) (color : ℚ × ℚ → Rgba) (s : Surface) :
    (paintRegion region color s).texts = s.texts := rfl

/-! ### Lemmas about the organic-polygon rasterizer -/

theorem drawOrganicPolygons_texts (polys : List (List Point)) (w h : ℚ) (c : Rgba)
    (s : Surface) : (PolyMask.drawOrganicPolygons polys w h c s).texts = s.texts := by
  induction polys generalizing s with
  | nil => rfl
  | cons q rest ih =>
      simp only [PolyMask.drawOrganicPolygons]
      rw [ih]
      split <;> rfl

theorem drawOrganicPolygons_append (l1 l2 : List (List Point)) (w h : ℚ) (c : Rgba)
    (s : Surface) :
    PolyMask.drawOrganicPolygons (l1 ++ l2) w h c s =
      PolyMask.drawOrganicPolygons l2 w h c (PolyMask.drawOrganicPolygons l1 w h c s) := by
  induction l1 generalizing s with
  | nil => rfl
  | cons q rest ih =>
      simp only [List.cons_append, PolyMask.drawOrganicPolygons]
      exact ih _

/-- Once a pixel holds the (opaque) fill color of a polygon pass, further
polygons of the same pass leave it at that color. -/
theorem drawOrganicPolygons_pix_stable (polys : List (List Point)) (w h : ℚ) (c : Rgba)
    (hc : c.a = 1) (s : Surface) (p : ℚ × ℚ) (hs : s.pix p = c.rgb) :
    (PolyMask.drawOrganicPolygons polys w h c s).pix p = c.rgb := by
  induction polys generalizing s with
  | nil => exact hs
  | cons q rest ih =>
      simp only [PolyMask.drawOrganicPolygons]
      apply ih
      split
      · exact hs
      · rw [paintRegion_pix]
        split
        · exact blendOver_alpha_one c _ hc
        · exact hs

/-- A pixel covered by the rasterization of some drawn polygon of a pass
ends the pass holding the pass's (opaque) fill color. -/
theorem drawOrganicPolygons_pix_covered (polys : List (List Point)) (w h : ℚ) (c : Rgba)
    (hc : c.a = 1) (s : Surface) (p : ℚ × ℚ)
    (hcov : ∃ q ∈ polys, ¬q.length < 3 ∧ polyCoversB (scalePolygon q w h) p = true) :
    (PolyMask.drawOrganicPolygons polys w h c s).pix p = c.rgb := by
  induction polys generalizing s with
  | nil => simp at hcov
  | cons q rest ih =>
      obtain ⟨q', hmem, h3, hcovq⟩ := hcov
      simp only [PolyMask.drawOrganicPolygons]
      rcases List.mem_cons.mp hmem with heq | hmem'
      · subst heq
        apply drawOrganicPolygons_pix_stable _ _ _ _ hc
        rw [if_neg h3, paintRegion_pix, if_pos hcovq]
        exact blendOver_alpha_one c _ hc
      · exact ih _ ⟨q', hmem', h3, hcovq⟩

/-! ### Claim theorems -/

/-- Claim C1: in `generateGTReferenceMask`, land polygons are drawn first
and spill polygons last, so at every pixel covered by the rasterizations
of both an overlapping land polygon and a spill polygon, the final pixel
color is the spill color (pure black), never the land color. -/
theorem c1_gt_spill_occludes_land (width height : ℚ)
    (spillPolygons landPolygons : List (List Point)) (L S : List Point)
    (hL : L ∈ landPolygons) (hS : S ∈ spillPolygons)
    (hL3 : ¬L.length < 3) (hS3 : ¬S.length < 3) (p : ℚ × ℚ)
    (hLcov : polyCoversB (scalePolygon L width height) p = true)
    (hScov : polyCoversB (scalePolygon S width height) p = true) :
    (PolyMask.generateGTReferenceMaskSurface width height spillPolygons landPolygons).pix p =
        PolyMask.spillColor.rgb ∧
      PolyMask.spillColor.rgb ≠ PolyMask.landColor.rgb := by
  constructor
  · exact drawOrganicPolygons_pix_covered _ _ _ _ rfl _ _ ⟨S, hS, hS3, hScov⟩
  · decide

/-- Witness for C1: a concrete land square and spill square overlapping at
the pixel `(30, 30)` of a 100×100 canvas; the ground-truth mask holds pure
black there. -/
theorem c1_witness :
    ([⟨0, 0⟩, ⟨50, 0⟩, ⟨50, 50⟩, ⟨0, 50⟩] : List Point) ∈
        [([⟨0, 0⟩, ⟨50, 0⟩, ⟨50, 50⟩, ⟨0, 50⟩] : List Point)] ∧
      ([⟨25, 25⟩, ⟨75, 25⟩, ⟨75, 75⟩, ⟨25, 75⟩] : List Point) ∈
        [([⟨25, 25⟩, ⟨75, 25⟩, ⟨75, 75⟩, ⟨25, 75⟩] : List Point)] ∧
      polyCoversB (scalePolygon [⟨0, 0⟩, ⟨50, 0⟩, ⟨50, 50⟩, ⟨0, 50⟩] 100 100) (30, 30) = true ∧
      polyCoversB (scalePolygon [⟨25, 25⟩, ⟨75, 25⟩, ⟨75, 75⟩, ⟨25, 75⟩] 100 100) (30, 30) = true ∧
      (PolyMask.generateGTReferenceMaskSurface 100 100
          [[⟨25, 25⟩, ⟨75, 25⟩, ⟨75, 75⟩, ⟨25, 75⟩]]
          [[⟨0, 0⟩, ⟨50, 0⟩, ⟨50, 50⟩, ⟨0, 50⟩]]).pix (30, 30) = PolyMask.spillColor.rgb := by
  have hLcov : polyCoversB (scalePolygon [⟨0, 0⟩, ⟨50, 0⟩, ⟨50, 50⟩, ⟨0, 50⟩] 100 100)
      (30, 30) = true := by
    norm_num [polyCoversB, windingNumber, cyclicEdges, edgeWinding, scalePolygon, normalizePercent]
  have hScov : polyCoversB (scalePolygon [⟨25, 25⟩, ⟨75, 25⟩, ⟨75, 75⟩, ⟨25, 75⟩] 100 100)
      (30, 30) = true := by
    norm_num [polyCoversB, windingNumber, cyclicEdges, edgeWinding, scalePolygon, normalizePercent]
  refine ⟨by simp, by simp, hLcov, hScov, ?_⟩
  exact (c1_gt_spill_occludes_land 100 100
    [[⟨25, 25⟩, ⟨75, 25⟩, ⟨75, 75⟩, ⟨25, 75⟩]] [[⟨0, 0⟩, ⟨50, 0⟩, ⟨50, 50⟩, ⟨0, 50⟩]]
    [⟨0, 0⟩, ⟨50, 0⟩, ⟨50, 50⟩, ⟨0, 50⟩] [⟨25, 25⟩, ⟨75, 25⟩, ⟨75, 75⟩, ⟨25, 75⟩]
    (by simp) (by simp) (by norm_num) (by norm_num) (30, 30) hLcov hScov).1

/-- Claim C4: the percentage-to-pixel normalization is a pure linear scale
`percent / 100 * target`; for percentages in `[0, 100]` and nonnegative
target dimensions the result lies in `[0, W] × [0, H]`, and with no
clamping an input beyond 100 lands linearly beyond the canvas edge. -/
theorem c4_normalization_bounds (x y W H u V : ℚ)
    (hx0 : 0 ≤ x) (hx1 : x ≤ 100) (hy0 : 0 ≤ y) (hy1 : y ≤ 100)
    (hW : 0 ≤ W) (hH : 0 ≤ H) (hu : 100 < u) (hV : 0 < V) :
    0 ≤ normalizePercent x W ∧ normalizePercent x W ≤ W ∧
      0 ≤ normalizePercent y H ∧ normalizePercent y H ≤ H ∧
      V < normalizePercent u V := by
  simp only [normalizePercent]
  refine ⟨mul_nonneg (div_nonneg hx0 (by norm_num)) hW, ?_,
    mul_nonneg (div_nonneg hy0 (by norm_num)) hH, ?_, ?_⟩
  · rw [div_mul_eq_mul_div, div_le_iff₀ (by norm_num : (0:ℚ) < 100)]
    nlinarith
  · rw [div_mul_eq_mul_div, div_le_iff₀ (by norm_num : (0:ℚ) < 100)]
    nlinarith
  · rw [div_mul_eq_mul_div, lt_div_iff₀ (by norm_num : (0:ℚ) < 100)]
    nlinarith

/-- Witness for C4: the point `(50, 25)` on a 200×100 canvas normalizes
into the canvas, and the out-of-range percentage 150 lands off-canvas. -/
theorem c4_witness :
    (0:ℚ) ≤ 50 ∧ (50:ℚ) ≤ 100 ∧ (0:ℚ) ≤ 25 ∧ (25:ℚ) ≤ 100 ∧ (0:ℚ) ≤ 200 ∧ (0:ℚ) ≤ 100 ∧
      (100:ℚ) < 150 ∧ (0:ℚ) < 100 ∧
      (0 ≤ normalizePercent 50 200 ∧ normalizePercent 50 200 ≤ 200 ∧
        0 ≤ normalizePercent 25 100 ∧ normalizePercent 25 100 ≤ 100 ∧
        100 < normalizePercent 150 100) := by
  refine ⟨by norm_num, by norm_num, by norm_num, by norm_num, by norm_num, by norm_num,
    by norm_num, by norm_num, ?_⟩
  exact c4_normalization_bounds 50 25 200 100 150 100 (by norm_num) (by norm_num) (by norm_num)
    (by norm_num) (by norm_num) (by norm_num) (by norm_num) (by norm_num)

/-- Claim C5: a polygon with fewer than 3 points is skipped entirely by the
rasterizer; the produced surface is identical (pixels and text ops) to the
surface produced with that polygon omitted from the list. -/
theorem c5_sub3_polygon_noop (l1 l2 : List (List Point)) (q : List Point)
    (hq : q.length < 3) (w h : ℚ) (c : Rgba) (s : Surface) :
    PolyMask.drawOrganicPolygons (l1 ++ q :: l2) w h c s =
      PolyMask.drawOrganicPolygons (l1 ++ l2) w h c s := by
  rw [drawOrganicPolygons_append, drawOrganicPolygons_append]
  simp only [PolyMask.drawOrganicPolygons, if_pos hq]

/-- Witness for C5: inserting a 1-point polygon before a concrete triangle
leaves the drawn surface unchanged. -/
theorem c5_witness :
    ([⟨1, 2⟩] : List Point).length < 3 ∧
      PolyMask.drawOrganicPolygons ([[⟨1, 2⟩]] ++ [[⟨0, 0⟩, ⟨50, 0⟩, ⟨0, 50⟩]]) 100 100
          PolyMask.spillColor blankSurface =
        PolyMask.drawOrganicPolygons ([] ++ [[⟨0, 0⟩, ⟨50, 0⟩, ⟨0, 50⟩]]) 100 100
          PolyMask.spillColor blankSurface := by
  refine ⟨by decide, ?_⟩
  exact c5_sub3_polygon_noop [] [[⟨0, 0⟩, ⟨50, 0⟩, ⟨0, 50⟩]] [⟨1, 2⟩] (by decide) 100 100
    PolyMask.spillColor blankSurface

/-! ### Surface normalization helpers for the bounding-box predicted mask -/

theorem c6_surface_normal : BoxMask.generatePredictedMaskSurface 200 200 [⟨10, 10, 20, 20⟩] =
    paintRegion (strokeBandB 20 20 40 40 1) (fun _ => BoxMask.borderColor)
      (paintRegion (inRectB 20 20 40 40)
        (fun q => BoxMask.linearGradientAt 20 20 60 60 BoxMask.gradientStop0 BoxMask.gradientStop1 q)
        (paintRegion (BoxMask.glowRegionB 20 20 40 40 25) (fun _ => BoxMask.glowColor)
          (paintRegion (inRectB 0 0 200 200) (fun _ => BoxMask.backgroundColor) blankSurface))) := by
  have hmax : max (1:ℚ) (200/300) = 1 := by
    rw [max_eq_left]
    norm_num
  simp only [BoxMask.generatePredictedMaskSurface, BoxMask.drawDetectionBox, List.foldl_cons,
    List.foldl_nil, List.isEmpty_cons, hmax]
  norm_num [normalizePercent]

theorem c6_gradient_channels (x0 y0 x1 y1 : ℚ) (p : ℚ × ℚ) :
    85 ≤ (BoxMask.linearGradientAt x0 y0 x1 y1 BoxMask.gradientStop0 BoxMask.gradientStop1 p).b ∧
      (BoxMask.linearGradientAt x0 y0 x1 y1 BoxMask.gradientStop0 BoxMask.gradientStop1 p).a = 1 := by
  refine ⟨?_, rfl⟩
  simp only [BoxMask.linearGradientAt, BoxMask.gradientStop0, BoxMask.gradientStop1]
  have ht : (0:ℚ) ≤ max 0 (min 1 (if (x1 - x0) * (x1 - x0) + (y1 - y0) * (y1 - y0) = 0 then 0
      else ((p.1 - x0) * (x1 - x0) + (p.2 - y0) * (y1 - y0)) /
        ((x1 - x0) * (x1 - x0) + (y1 - y0) * (y1 - y0)))) := le_max_left 0 _
  nlinarith [ht]

/-- Claim C6 (amended): for `coordinates = [{x:10, y:10, w:20, h:20}]` on a
200×200 source, the filled detection rectangle is exactly `[20,60]²` and
every point of it is non-background-colored; but the contrast stroke and
the 25px glow paint up to 25.5px beyond the rectangle, so only points
outside the glow-dilated box `[-5,85]²` are guaranteed background-colored. -/
theorem c6_amended_paint_region (p : ℚ × ℚ) :
    (inRectB 20 20 40 40 p = true →
      (BoxMask.generatePredictedMaskSurface 200 200 [⟨10, 10, 20, 20⟩]).pix p ≠
        BoxMask.backgroundColor.rgb) ∧
    (inRectB 0 0 200 200 p = true → inRectB (-5) (-5) 90 90 p = false →
      (BoxMask.generatePredictedMaskSurface 200 200 [⟨10, 10, 20, 20⟩]).pix p =
        BoxMask.backgroundColor.rgb) := by
  rw [c6_surface_normal]
  constructor
  · intro hfill
    by_cases hstroke : strokeBandB 20 20 40 40 1 p = true
    · rw [paintRegion_pix, hstroke, if_pos rfl, blendOver_alpha_one _ _ rfl]
      decide
    · rw [Bool.not_eq_true] at hstroke
      rw [paintRegion_pix, hstroke]
      simp only [Bool.false_eq_true, if_false]
      rw [paintRegion_pix, hfill, if_pos rfl]
      have hg := c6_gradient_channels 20 20 60 60 p
      rw [blendOver_alpha_one _ _ hg.2]
      intro heq
      have hb := congrArg Rgb.b heq
      simp only [Rgba.rgb, BoxMask.backgroundColor] at hb
      have hlb := hg.1
      rw [hb] at hlb
      norm_num at hlb
  · intro hin hout
    have h2 : inRectB 20 20 40 40 p = false := by
      rw [inRectB, decide_eq_false_iff_not]
      rw [inRectB, decide_eq_false_iff_not] at hout
      rintro ⟨a1, a2, a3, a4⟩
      exact hout ⟨by linarith, by linarith, by linarith, by linarith⟩
    have h3 : strokeBandB 20 20 40 40 1 p = false := by
      rw [strokeBandB]
      have houter : inRectB (20 - 1 / 2) (20 - 1 / 2) (40 + 1) (40 + 1) p = false := by
        rw [inRectB, decide_eq_false_iff_not]
        rw [inRectB, decide_eq_false_iff_not] at hout
        rintro ⟨a1, a2, a3, a4⟩
        exact hout ⟨by linarith, by linarith, by linarith, by linarith⟩
      rw [houter, Bool.false_and]
    have h4 : BoxMask.glowRegionB 20 20 40 40 25 p = false := by
      rw [BoxMask.glowRegionB]
      convert hout using 2 <;> norm_num
    rw [paintRegion_pix, h3]
    simp only [Bool.false_eq_true, if_false]
    rw [paintRegion_pix, h2]
    simp only [Bool.false_eq_true, if_false]
    rw [paintRegion_pix, h4]
    simp only [Bool.false_eq_true, if_false]
    rw [paintRegion_pix, hin, if_pos rfl]
    exact blendOver_alpha_one _ _ rfl

/-- Counterexample to claim C6 as stated: the point `(19.6, 30)` lies
outside the region `[20,60]²` yet is painted white by the contrast border
(line width 1 centered on the rectangle boundary), so not every pixel
outside the region is background-colored. -/
theorem c6_counterexample :
    inRectB 20 20 40 40 (98/5, 30) = false ∧
      (BoxMask.generatePredictedMaskSurface 200 200 [⟨10, 10, 20, 20⟩]).pix (98/5, 30) ≠
        BoxMask.backgroundColor.rgb := by
  constructor
  · rw [inRectB, decide_eq_false_iff_not]
    rintro ⟨a1, a2, a3, a4⟩
    norm_num at a1
  · rw [c6_surface_normal]
    have hstroke : strokeBandB 20 20 40 40 1 (98/5, 30) = true := by
      rw [strokeBandB, inRectB, inRectStrictB]
      norm_num
    rw [paintRegion_pix, hstroke, if_pos rfl, blendOver_alpha_one _ _ rfl]
    decide

/-- Witness for C6 (amended): the interior point `(30, 30)` is
non-background, and the far point `(100, 100)` (outside the glow-dilated
box) is background-colored. -/
theorem c6_witness :
    (inRectB 20 20 40 40 ((30 : ℚ), (30 : ℚ)) = true ∧
        (BoxMask.generatePredictedMaskSurface 200 200 [⟨10, 10, 20, 20⟩]).pix (30, 30) ≠
          BoxMask.backgroundColor.rgb) ∧
      (inRectB 0 0 200 200 ((100 : ℚ), (100 : ℚ)) = true ∧
        inRectB (-5) (-5) 90 90 ((100 : ℚ), (100 : ℚ)) = false ∧
        (BoxMask.generatePredictedMaskSurface 200 200 [⟨10, 10, 20, 20⟩]).pix (100, 100) =
          BoxMask.backgroundColor.rgb) := by
  have h1 : inRectB 20 20 40 40 ((30 : ℚ), (30 : ℚ)) = true := by
    rw [inRectB, decide_eq_true_eq]
    norm_num
  have h2 : inRectB 0 0 200 200 ((100 : ℚ), (100 : ℚ)) = true := by
    rw [inRectB, decide_eq_true_eq]
    norm_num
  have h3 : inRectB (-5) (-5) 90 90 ((100 : ℚ), (100 : ℚ)) = false := by
    rw [inRectB, decide_eq_false_iff_not]
    rintro ⟨a1, a2, a3, a4⟩
    norm_num at a2
  exact ⟨⟨h1, (c6_amended_paint_region (30, 30)).1 h1⟩,
    ⟨h2, h3, (c6_amended_paint_region (100, 100)).2 h2 h3⟩⟩

/-- Counterexample to claim C2 as stated: rasterizing the ground-truth
mask with empty shape lists yields a uniformly white canvas with no text
label at all — a blank, unlabeled surface, not a labeled placeholder. -/
theorem c2_counterexample :
    (PolyMask.generateGTReferenceMaskSurface 10 10 [] []).texts = [] ∧
      uniformInCanvas 10 10 (PolyMask.generateGTReferenceMaskSurface 10 10 [] [])
        PolyMask.whiteColor.rgb := by
  refine ⟨rfl, ?_⟩
  intro p hp
  have h1 : (PolyMask.generateGTReferenceMaskSurface 10 10 [] []).pix p =
      (paintRegion (inRectB 0 0 10 10) (fun _ => PolyMask.whiteColor) blankSurface).pix p := rfl
  rw [h1, paintRegion_pix, hp, if_pos rfl]
  exact blendOver_alpha_one _ _ rfl

/-- Claim C2 (amended): only the bounding-box `generatePredictedMask`
renders the empty-shape placeholder — a navy background with a centered
"NO ANOMALIES DETECTED" label; the ground-truth mask, the polygon
predicted mask and both overlay generators (polygon-based
`generateFinalOverlay` and bounding-box `generateOverlay`) draw no label
on empty geometry. -/
theorem c2_amended_placeholder (width height : ℚ) (data : ℚ × ℚ → Rgb) :
    (BoxMask.generatePredictedMaskSurface width height []).texts =
        [⟨"NO ANOMALIES DETECTED", width / 2, height / 2, "center"⟩] ∧
      uniformInCanvas width height (BoxMask.generatePredictedMaskSurface width height [])
        BoxMask.backgroundColor.rgb ∧
      (PolyMask.generateGTReferenceMaskSurface width height [] []).texts = [] ∧
      (PolyMask.generatePredictedMaskSurface width height []).texts = [] ∧
      (PolyMask.generateFinalOverlaySurface width height data []).texts = [] ∧
      (BoxMask.generateOverlaySurface width height data []).texts = [] := by
  refine ⟨rfl, ?_, rfl, rfl, rfl, rfl⟩
  intro p hp
  have h1 : (BoxMask.generatePredictedMaskSurface width height []).pix p =
      (paintRegion (inRectB 0 0 width height) (fun _ => BoxMask.backgroundColor)
        blankSurface).pix p := rfl
  rw [h1, paintRegion_pix, hp, if_pos rfl]
  exact blendOver_alpha_one _ _ rfl

/-- Witness for C2 (amended): concrete 10×10 surfaces; the box-based
predicted mask carries the centered label and a navy canvas, while the
ground-truth mask carries no label. -/
theorem c2_witness :
    (BoxMask.generatePredictedMaskSurface 10 10 []).texts =
        [⟨"NO ANOMALIES DETECTED", 10 / 2, 10 / 2, "center"⟩] ∧
      (BoxMask.generatePredictedMaskSurface 10 10 []).pix (3, 3) =
        BoxMask.backgroundColor.rgb ∧
      (PolyMask.generateGTReferenceMaskSurface 10 10 [] []).texts = [] := by
  have hp : inRectB 0 0 10 10 ((3 : ℚ), (3 : ℚ)) = true := by
    rw [inRectB, decide_eq_true_eq]
    norm_num
  obtain ⟨ht, hu, hg, -, -, -⟩ := c2_amended_placeholder 10 10 (fun _ => ⟨0, 0, 0⟩)
  exact ⟨ht, hu (3, 3) hp, hg⟩

/-- Counterexample to claim C3 as stated: when the source image fails to
decode, no handler runs and the promise never resolves (modeled `none`);
it does not resolve to the empty string. -/
theorem c3_counterexample :
    PolyMask.generateGTReferenceMask ImageLoad.failed true [] [] = none := rfl

/-- Claim C3 (amended): an unavailable 2D context resolves every mask and
overlay generator to the empty string, but a decode failure leaves the
promise permanently pending (no `onerror` handler is installed), so the
empty string is the failure signal only for surface-creation failure. -/
theorem c3_amended_failure_modes (width height : ℚ) (data : ℚ × ℚ → Rgb) (ctxOk : Bool)
    (spillPolygons landPolygons polygons : List (List Point)) (coords : List Coordinate) :
    (PolyMask.generateGTReferenceMask (ImageLoad.loaded width height data) false
        spillPolygons landPolygons = some ArtifactValue.empty) ∧
      (PolyMask.generateGTReferenceMask ImageLoad.failed ctxOk spillPolygons landPolygons =
        none) ∧
      (PolyMask.generatePredictedMask (ImageLoad.loaded width height data) false polygons =
        some ArtifactValue.empty) ∧
      (PolyMask.generatePredictedMask ImageLoad.failed ctxOk polygons = none) ∧
      (PolyMask.generateFinalOverlay (ImageLoad.loaded width height data) false polygons =
        some ArtifactValue.empty) ∧
      (PolyMask.generateFinalOverlay ImageLoad.failed ctxOk polygons = none) ∧
      (BoxMask.generatePredictedMask (ImageLoad.loaded width height data) false coords =
        some ArtifactValue.empty) ∧
      (BoxMask.generatePredictedMask ImageLoad.failed ctxOk coords = none) ∧
      (BoxMask.generateOverlay (ImageLoad.loaded width height data) false coords =
        some ArtifactValue.empty) ∧
      (BoxMask.generateOverlay ImageLoad.failed ctxOk coords = none) :=
  ⟨rfl, rfl, rfl, rfl, rfl, rfl, rfl, rfl, rfl, rfl⟩

/-- Claim C7: in the radar layout, metric `i` of `N` sits at turn fraction
`i / N` (equal angular steps) at polar radius `(value / fullMark) * radius`;
for the metrics A(50/100) and B(100/100), B's vertex radius 140 equals the
outermost grid ring radius (`radius * 1`) and A's radius 70 is exactly
half of it. -/
theorem c7_radar_layout :
    Radar.vertexPolar [⟨"A", 50, 100⟩, ⟨"B", 100, 100⟩] = [(0, 70), (1/2, 140)] ∧
      Radar.gridRingRadii = [28, 56, 84, 112, 140] ∧
      Radar.radius = 140 ∧ (70 : ℚ) = 140 / 2 := by
  refine ⟨?_, ?_, ?_, by norm_num⟩
  · norm_num [Radar.vertexPolar, Radar.radius, Radar.size, List.range_succ]
  · norm_num [Radar.gridRingRadii, Radar.radius, Radar.size]
  · norm_num [Radar.radius, Radar.size]

/-! ### Parsing lemmas for the area-estimate fallback -/

theorem parseLeadingFloat_all_dots (l : List Char) (h : ∀ c ∈ l, c = '.') :
    AreaChart.parseLeadingFloat l = none := by
  have hdot : '.'.isDigit = false := by decide
  cases l with
  | nil => rfl
  | cons c t =>
      have hc : c = '.' := h c (List.mem_cons_self c t)
      subst hc
      cases t with
      | nil => simp [AreaChart.parseLeadingFloat, AreaChart.splitDigits, hdot]
      | cons d t2 =>
          have hd : d = '.' := h d (List.mem_cons_of_mem _ (List.mem_cons_self d t2))
          subst hd
          simp [AreaChart.parseLeadingFloat, AreaChart.splitDigits, hdot]

theorem stripNonNumeric_all_dots (s : String) (h : ∀ c ∈ s.data, c.isDigit = false) :
    ∀ c ∈ AreaChart.stripNonNumeric s, c = '.' := by
  intro c hc
  rw [AreaChart.stripNonNumeric] at hc
  obtain ⟨hmem, hpred⟩ := List.mem_filter.mp hc
  have hdig := h c hmem
  simpa [hdig] using hpred

/-- Claim C9 (amended): a free-text area estimate with no digits always
falls back to the constant magnitude 50 (and the parse is total, never an
error); an estimate that parses to a nonzero magnitude parameterizes the
curve with that value — but a parsed magnitude of exactly 0 also falls
back to 50, because `|| 50` treats the number 0 as falsy. -/
theorem c9_amended_area_fallback (s : String) (v : ℚ) :
    ((∀ c ∈ s.data, c.isDigit = false) → AreaChart.areaValueOf s = 50) ∧
      (AreaChart.parseLeadingFloat (AreaChart.stripNonNumeric s) = some v → v ≠ 0 →
        AreaChart.areaValueOf s = v) ∧
      (AreaChart.parseLeadingFloat (AreaChart.stripNonNumeric s) = none →
        AreaChart.areaValueOf s = 50) := by
  refine ⟨?_, ?_, ?_⟩
  · intro hnod
    have hnone := parseLeadingFloat_all_dots _ (stripNonNumeric_all_dots s hnod)
    simp [AreaChart.areaValueOf, hnone]
  · intro hp hv
    simp [AreaChart.areaValueOf, hp, hv]
  · intro hp
    simp [AreaChart.areaValueOf, hp]

/-- Counterexample to claim C9 as stated: the estimate `"0 km²"` contains
the numeric magnitude 0, yet the curve magnitude used is the fallback 50,
not the parsed value. -/
theorem c9_counterexample :
    AreaChart.parseLeadingFloat (AreaChart.stripNonNumeric "0 km²") = some 0 ∧
      AreaChart.areaValueOf "0 km²" = 50 ∧ (50 : ℚ) ≠ 0 := by
  refine ⟨?_, ?_, by norm_num⟩
  · norm_num +decide [AreaChart.parseLeadingFloat, AreaChart.stripNonNumeric,
      AreaChart.splitDigits, AreaChart.digitsToNat]
  · norm_num +decide [AreaChart.areaValueOf, AreaChart.parseLeadingFloat,
      AreaChart.stripNonNumeric, AreaChart.splitDigits, AreaChart.digitsToNat]

/-- Witness for C9 (amended): the digit-free estimate "solid area" falls
back to 50, and "4.2 km²" parameterizes the curve with 4.2. -/
theorem c9_witness :
    AreaChart.areaValueOf "solid area" = 50 ∧ AreaChart.areaValueOf "4.2 km²" = 21 / 5 := by
  constructor
  · exact (c9_amended_area_fallback "solid area" 0).1 (by decide)
  · refine (c9_amended_area_fallback "4.2 km²" (21 / 5)).2.1 ?_ (by norm_num)
    have h4 : '4'.toNat = 52 := by decide
    have h2 : '2'.toNat = 50 := by decide
    have h0 : '0'.toNat = 48 := by decide
    norm_num +decide [AreaChart.parseLeadingFloat, AreaChart.stripNonNumeric,
      AreaChart.splitDigits, AreaChart.digitsToNat, h4, h2, h0]

/-! ### Finiteness lemmas for the performance SVG x-scale -/

theorem getXj_isSome_of_two_le (len : ℕ) (h2 : 2 ≤ len) (i : ℚ) :
    (ReportSvg.getXj len i).isSome = true := by
  have hlen : ((len : ℚ) - 1) ≠ 0 := by
    have h : (2 : ℚ) ≤ (len : ℚ) := by exact_mod_cast h2
    intro h0
    rw [sub_eq_zero] at h0
    rw [h0] at h
    norm_num at h
  simp [ReportSvg.getXj, ReportSvg.jdiv, hlen]

/-- Claim C10: the static training-performance SVG is well-defined only
for histories of at least two points: with `history.length ≥ 2` every
x-coordinate emitted into the area path markup is a finite number, while a
one-point history divides by `length - 1 = 0` and emits a non-finite
(NaN) coordinate — a precondition the spec does not state. -/
theorem c10_performance_svg_finiteness (history : List TrainingMetricPoint)
    (pt : TrainingMetricPoint) (h2 : 2 ≤ history.length) :
    ReportSvg.allXFinite history = true ∧ ReportSvg.allXFinite [pt] = false := by
  constructor
  · rw [ReportSvg.allXFinite, List.all_eq_true]
    intro c hc
    simp only [ReportSvg.areaPathCoords, List.mem_cons, List.mem_append, List.mem_map,
      List.mem_singleton] at hc
    rcases hc with (h | ⟨ip, hip, h⟩) | (h | h)
    · rw [h]
      exact getXj_isSome_of_two_le _ h2 _
    · rw [← h]
      exact getXj_isSome_of_two_le _ h2 _
    · rw [h]
      exact getXj_isSome_of_two_le _ h2 _
    · exact absurd h (List.not_mem_nil c)
  · have hx : ReportSvg.getXj 1 0 = none := by
      norm_num [ReportSvg.getXj, ReportSvg.jdiv]
    rw [ReportSvg.allXFinite]
    simp [ReportSvg.areaPathCoords, hx]

/-- Witness for C10: a concrete two-point history has all-finite x-coords;
the singleton history does not. -/
theorem c10_witness :
    2 ≤ ([⟨1, 17/20, 21/50, 157/2⟩, ⟨5, 31/50, 29/50, 421/5⟩] :
        List TrainingMetricPoint).length ∧
      ReportSvg.allXFinite [⟨1, 17/20, 21/50, 157/2⟩, ⟨5, 31/50, 29/50, 421/5⟩] = true ∧
      ReportSvg.allXFinite [⟨1, 17/20, 21/50, 157/2⟩] = false := by
  refine ⟨by decide, ?_, ?_⟩
  · exact (c10_performance_svg_finiteness
      [⟨1, 17/20, 21/50, 157/2⟩, ⟨5, 31/50, 29/50, 421/5⟩] ⟨1, 17/20, 21/50, 157/2⟩
      (by decide)).1
  · exact (c10_performance_svg_finiteness
      [⟨1, 17/20, 21/50, 157/2⟩, ⟨5, 31/50, 29/50, 421/5⟩] ⟨1, 17/20, 21/50, 157/2⟩
      (by decide)).2
